import Mathlib

/-!
Verification of the kitties pallet (src/lesson5/pallets/kitties/src/lib.rs).

The pallet's storage items are embedded as one explicit state record:
  * `Kitties`            : map u32 => Option Kitty
  * `KittiesCount`       : u32 (value, default 0)
  * `OwnedKitties`       : map (AccountId, u32) => u32 (default 0, so the
                           underlying map is modelled as `Option`-valued and
                           `get` applies the default)
  * `OwnedKittiesCount`  : map AccountId => u32 (default 0)

u32 values are modelled as `Nat`; u32 addition that may overflow is taken
modulo 2^32 (release-mode wrapping semantics); u32 subtraction only occurs
where the code has already established it cannot underflow, where it agrees
with truncated `Nat` subtraction.

Externals: the entropy source (`random_value`) is passed in as an explicit
16-byte argument, and `T::Lookup::lookup` is passed in as an explicit
`Nat → Option AccountId` function; both are external collaborators of the
pallet.  Operations return the storage state as it stands when they finish,
together with the dispatch error when they fail, mirroring the source's
sequencing of reads, checks and writes line by line.
-/

abbrev AccountId := Nat

/-- `pub struct Kitty(pub [u8; 16])`: a 16-byte DNA payload, bytes as `Nat`. -/
structure Kitty where
  dna : Fin 16 → Nat
deriving DecidableEq

/-- The pallet's `Error` enum, plus `CannotLookup` for the dispatch error
produced when `T::Lookup::lookup` fails in `transfer`. -/
inductive KittyError where
  | KittiesCountOverflow
  | InvalidKittyId
  | RequireDifferentParent
  | UserNotHaveTheKitty
  | CannotLookup
deriving DecidableEq

/-- `u32::max_value()`. -/
def U32MAX : Nat := 4294967295

/-- Modulus for wrapping u32 arithmetic. -/
def U32MOD : Nat := 4294967296

/-- The pallet's storage. -/
structure State where
  kitties : Nat → Option Kitty
  kittiesCount : Nat
  ownedKitties : AccountId → Nat → Option Nat
  ownedKittiesCount : AccountId → Nat

/-- `Kitties::insert(kitty_id, kitty)`. -/
def kittiesInsert (s : State) (kitty_id : Nat) (kitty : Kitty) : State :=
  { s with kitties := fun j => if j = kitty_id then some kitty else s.kitties j }

/-- `KittiesCount::put(n)`. -/
def kittiesCountPut (s : State) (n : Nat) : State :=
  { s with kittiesCount := n }

/-- `OwnedKitties::get((owner, i))` — a `u32`-valued map, default 0. -/
def ownedKittiesGet (s : State) (owner : AccountId) (i : Nat) : Nat :=
  (s.ownedKitties owner i).getD 0

/-- `OwnedKitties::insert((owner, i), id)`. -/
def ownedKittiesInsert (s : State) (owner : AccountId) (i id : Nat) : State :=
  { s with ownedKitties := fun o j =>
      if o = owner ∧ j = i then some id else s.ownedKitties o j }

/-- `OwnedKitties::remove((owner, i))`. -/
def ownedKittiesRemove (s : State) (owner : AccountId) (i : Nat) : State :=
  { s with ownedKitties := fun o j =>
      if o = owner ∧ j = i then none else s.ownedKitties o j }

/-- `OwnedKittiesCount::insert(owner, n)`. -/
def ownedKittiesCountInsert (s : State) (owner : AccountId) (n : Nat) : State :=
  { s with ownedKittiesCount := fun o =>
      if o = owner then n else s.ownedKittiesCount o }

/-- `fn combine_dna(dna1: u8, dna2: u8, selector: u8) -> u8`:
`(selector & dna1) | (!selector & dna2)`; on u8, `!selector` is
`selector ^^^ 255`. -/
def combine_dna (dna1 dna2 selector : Nat) : Nat :=
  (selector &&& dna1) ||| ((selector ^^^ 255) &&& dna2)

/-- `fn next_kitty_id()`: returns the current counter, or
`KittiesCountOverflow` when it already equals `u32::max_value()`. -/
def next_kitty_id (s : State) : Except KittyError Nat :=
  let kitty_id := s.kittiesCount
  if kitty_id = U32MAX then Except.error KittyError.KittiesCountOverflow
  else Except.ok kitty_id

/-- `fn insert_kitty(owner, kitty_id, kitty)`: stores the kitty, puts the
counter to `kitty_id + 1`, and appends the id at the owner's current count,
incrementing that count (both additions wrap as u32). -/
def insert_kitty (s : State) (owner : AccountId) (kitty_id : Nat) (kitty : Kitty) : State :=
  let s1 := kittiesInsert s kitty_id kitty
  let s2 := kittiesCountPut s1 ((kitty_id + 1) % U32MOD)
  let user_kitties_count := s2.ownedKittiesCount owner
  let s3 := ownedKittiesCountInsert s2 owner ((user_kitties_count + 1) % U32MOD)
  ownedKittiesInsert s3 owner user_kitties_count kitty_id

/-- `pub fn create(origin)` after `ensure_signed`: `dna` stands for the
externally drawn `random_value(&sender)`. -/
def create (s : State) (sender : AccountId) (dna : Fin 16 → Nat) :
    State × Option KittyError :=
  match next_kitty_id s with
  | Except.error e => (s, some e)
  | Except.ok kitty_id => (insert_kitty s sender kitty_id ⟨dna⟩, none)

/-- `fn do_breed(sender, kitty_id_1, kitty_id_2)`: `selector` stands for the
externally drawn `random_value(&sender)`. -/
def do_breed (s : State) (sender : AccountId) (kitty_id_1 kitty_id_2 : Nat)
    (selector : Fin 16 → Nat) : State × Option KittyError :=
  match s.kitties kitty_id_1 with
  | none => (s, some KittyError.InvalidKittyId)
  | some kitty1 =>
    match s.kitties kitty_id_2 with
    | none => (s, some KittyError.InvalidKittyId)
    | some kitty2 =>
      if kitty_id_1 = kitty_id_2 then (s, some KittyError.RequireDifferentParent)
      else
        match next_kitty_id s with
        | Except.error e => (s, some e)
        | Except.ok kitty_id =>
          let new_dna : Fin 16 → Nat :=
            fun i => combine_dna (kitty1.dna i) (kitty2.dna i) (selector i)
          (insert_kitty s sender kitty_id ⟨new_dna⟩, none)

/-- `pub fn transfer(origin, user_kitty_id, to)` after `ensure_signed`.
`lup` stands for `T::Lookup::lookup`; `to_src` is the unresolved recipient. -/
def transfer (lup : Nat → Option AccountId) (s : State) (sender : AccountId)
    (user_kitty_id : Nat) (to_src : Nat) : State × Option KittyError :=
  let from_user_kitties_count := s.ownedKittiesCount sender
  if from_user_kitties_count > user_kitty_id then
    match lup to_src with
    | none => (s, some KittyError.CannotLookup)
    | some toAcc =>
      let to_user_kitties_count := s.ownedKittiesCount toAcc
      if to_user_kitties_count = U32MAX then
        (s, some KittyError.KittiesCountOverflow)
      else
        let kitty_id := ownedKittiesGet s sender user_kitty_id
        let s1 := ownedKittiesCountInsert s sender (from_user_kitties_count - 1)
        let s2 :=
          if user_kitty_id + 1 ≠ from_user_kitties_count then
            let from_last_kitty_id :=
              ownedKittiesGet s1 sender (from_user_kitties_count - 1)
            let s1a := ownedKittiesRemove s1 sender (from_user_kitties_count - 1)
            ownedKittiesInsert s1a sender user_kitty_id from_last_kitty_id
          else
            ownedKittiesRemove s1 sender user_kitty_id
        let s3 := ownedKittiesCountInsert s2 toAcc ((to_user_kitties_count + 1) % U32MOD)
        (ownedKittiesInsert s3 toAcc ((to_user_kitties_count + 1) % U32MOD) kitty_id, none)
  else
    (s, some KittyError.UserNotHaveTheKitty)

/-- Density invariant of the spec: owner `o`'s populated slots are exactly
`0 .. countOf(o)`. -/
def denseFor (s : State) (o : AccountId) : Prop :=
  ∀ i : Nat, (s.ownedKitties o i).isSome ↔ i < s.ownedKittiesCount o

/-- The empty genesis storage. -/
def emptyState : State :=
  { kitties := fun _ => none
  , kittiesCount := 0
  , ownedKitties := fun _ _ => none
  , ownedKittiesCount := fun _ => 0 }

/-- An identity lookup: every source resolves to itself. -/
def idLookup : Nat → Option AccountId := fun n => some n

/-- An all-zero DNA payload. -/
def dna0 : Fin 16 → Nat := fun _ => 0

/-- An all-one DNA payload. -/
def dna1 : Fin 16 → Nat := fun _ => 1

/-- Owner 0 after creating kitty 0 (slot 0, count 1, global counter 1). -/
def stateA1 : State := (create emptyState 0 dna0).1

/-- Owner 0 after creating kitties 0 and 1 (slots 0 and 1, count 2,
global counter 2). -/
def stateA2 : State := (create stateA1 0 dna1).1

/-- A state whose global counter is exhausted. -/
def stateFullCounter : State :=
  { emptyState with kittiesCount := U32MAX }

/-- A state whose global counter is one below exhaustion. -/
def stateAlmostFull : State :=
  { emptyState with kittiesCount := U32MAX - 1 }

/-- A state in which owner 0's kitty count is saturated at `u32::MAX`. -/
def stateMaxOwner : State :=
  { emptyState with ownedKittiesCount := fun o => if o = 0 then U32MAX else 0 }

/-- Well-formedness of the entity store: no kitty is stored at or beyond the
current counter.  This holds in every state reachable from genesis. -/
def storeBounded (s : State) : Prop :=
  ∀ j : Nat, s.kittiesCount ≤ j → s.kitties j = none

/-- A literal one-kitty state: owner 0 holds kitty 0 at slot 0. -/
def stateOneKitty : State :=
  { kitties := fun j => if j = 0 then some ⟨dna0⟩ else none
  , kittiesCount := 1
  , ownedKitties := fun o i => if o = 0 ∧ i = 0 then some 0 else none
  , ownedKittiesCount := fun o => if o = 0 then 1 else 0 }

/-- The state reached by owner 0 creating kitty 0 and then transferring its
slot 0 to owner 1. -/
def stateAfterGapTransfer : State := (transfer idLookup stateA1 0 0 1).1

/-- Claim C1, evaluated at its own scenario: owner 0 holds kitties 0 and 1 at
slots 0 and 1 and transfers slot 0 to the fresh owner 1.  The sender side
behaves as claimed (count 1, slot 0 now holds kitty 1) and the recipient
count becomes 1, but the moved id lands at the recipient slot
`to_user_kitties_count + 1 = 1`, leaving recipient slot 0 unpopulated —
not at slot `countOf(to) = 0` as the claim states. -/
theorem c1_transfer_recipient_slot_bug :
    (transfer idLookup stateA2 0 0 1).2 = none ∧
    (transfer idLookup stateA2 0 0 1).1.ownedKittiesCount 0 = 1 ∧
    (transfer idLookup stateA2 0 0 1).1.ownedKitties 0 0 = some 1 ∧
    (transfer idLookup stateA2 0 0 1).1.ownedKittiesCount 1 = 1 ∧
    (transfer idLookup stateA2 0 0 1).1.ownedKitties 1 0 = none ∧
    (transfer idLookup stateA2 0 0 1).1.ownedKitties 1 1 = some 0 := by
  decide

/-- Claim C2, refuted on a reachable state: after owner 0 creates one kitty
and transfers its slot 0 to owner 1, the recipient count is 1 but the
recipient slot 0 is unpopulated (the id sits at slot 1), so the density
invariant fails for owner 1. -/
theorem c2_density_invariant_fails :
    (transfer idLookup stateA1 0 0 1).2 = none ∧
    stateAfterGapTransfer.ownedKittiesCount 1 = 1 ∧
    stateAfterGapTransfer.ownedKitties 1 0 = none ∧
    ¬ denseFor stateAfterGapTransfer 1 :=
  ⟨by decide, by decide, by decide,
   fun h => absurd ((h 0).mpr (by decide)) (by decide)⟩

/-- Claim C7, refuted: with owner 0 at the saturated count `u32::MAX`,
`create` succeeds and `insert_kitty` wraps the owner count back to 0
instead of failing with an owner-count overflow error. -/
theorem c7_owner_count_wraps :
    stateMaxOwner.ownedKittiesCount 0 = U32MAX ∧
    (create stateMaxOwner 0 dna0).2 = none ∧
    (create stateMaxOwner 0 dna0).1.ownedKittiesCount 0 = 0 := by
  decide

/-- Claim C9, refuted: owner 0 holds one kitty (count 1) and transfers its
slot 0 to itself.  The transfer succeeds, but the cached destination count
is written back as `to_user_kitties_count + 1`, so the count becomes 2
rather than staying 1, slot 0 is cleared, and the kitty sits at slot 2. -/
theorem c9_self_transfer_count_bug :
    stateA1.ownedKittiesCount 0 = 1 ∧
    (transfer idLookup stateA1 0 0 0).2 = none ∧
    (transfer idLookup stateA1 0 0 0).1.ownedKittiesCount 0 = 2 ∧
    (transfer idLookup stateA1 0 0 0).1.ownedKitties 0 0 = none ∧
    (transfer idLookup stateA1 0 0 0).1.ownedKitties 0 2 = some 0 := by
  decide

/-- Claim C4: breeding an existing kitty with itself fails with
`RequireDifferentParent` and leaves the whole storage unchanged — no kitty
is allocated, the global counter does not advance, and no ownership slot or
count changes.  (For an id absent from the store the earlier existence check
fires instead; see C10.) -/
theorem c4_breed_same_parent (s : State) (caller : AccountId) (idX : Nat)
    (sel : Fin 16 → Nat) (k : Kitty) (h : s.kitties idX = some k) :
    do_breed s caller idX idX sel = (s, some KittyError.RequireDifferentParent) := by
  unfold do_breed
  rw [h]
  simp

theorem c4_breed_same_parent_witness :
    do_breed stateA1 0 0 0 dna0 = (stateA1, some KittyError.RequireDifferentParent) :=
  c4_breed_same_parent stateA1 0 0 dna0 ⟨dna0⟩ rfl

/-- Claim C10: when both breed arguments are the same id but no kitty is
stored under it, `do_breed` fails with `InvalidKittyId`, not
`RequireDifferentParent`: the existence check on the first parent runs
before the distinctness check, and the state is unchanged. -/
theorem c10_breed_absent_same_id (s : State) (caller : AccountId) (idX : Nat)
    (sel : Fin 16 → Nat) (h : s.kitties idX = none) :
    do_breed s caller idX idX sel = (s, some KittyError.InvalidKittyId) := by
  unfold do_breed
  rw [h]

theorem c10_breed_absent_same_id_witness :
    do_breed emptyState 0 7 7 dna0 = (emptyState, some KittyError.InvalidKittyId) :=
  c10_breed_absent_same_id emptyState 0 7 dna0 rfl

/-- Claim C3: every error path of `create`, `do_breed` and `transfer` returns
the storage exactly as it was handed in — all checks (including the
destination-overflow check of `transfer`) run before any mutation, so a
failed operation modifies neither the kitty store, nor the counter, nor any
ownership slot or count. -/
theorem c3_error_atomicity :
    (∀ s sender dna e, (create s sender dna).2 = some e →
      (create s sender dna).1 = s) ∧
    (∀ s sender id1 id2 sel e, (do_breed s sender id1 id2 sel).2 = some e →
      (do_breed s sender id1 id2 sel).1 = s) ∧
    (∀ lup s sender u t e, (transfer lup s sender u t).2 = some e →
      (transfer lup s sender u t).1 = s) := by
  refine ⟨?_, ?_, ?_⟩
  · intro s sender dna e
    unfold create
    split
    · intro _; rfl
    · intro h; simp at h
  · intro s sender id1 id2 sel e
    unfold do_breed
    split
    · intro _; rfl
    · split
      · intro _; rfl
      · split
        · intro _; rfl
        · split
          · intro _; rfl
          · intro h; simp at h
  · intro lup s sender u t e
    unfold transfer
    dsimp only
    split
    · split
      · intro _; rfl
      · split
        · intro _; rfl
        · intro h; simp at h
    · intro _; rfl

theorem c3_error_atomicity_witness :
    (create stateFullCounter 0 dna0).1 = stateFullCounter ∧
    (do_breed emptyState 0 5 5 dna0).1 = emptyState ∧
    (transfer idLookup emptyState 0 0 1).1 = emptyState :=
  ⟨c3_error_atomicity.1 stateFullCounter 0 dna0 KittyError.KittiesCountOverflow rfl,
   c3_error_atomicity.2.1 emptyState 0 5 5 dna0 KittyError.InvalidKittyId rfl,
   c3_error_atomicity.2.2 idLookup emptyState 0 0 1 KittyError.UserNotHaveTheKitty rfl⟩

/-- Claim C5 counterexample: with the counter at `u32::MAX` — the call that
would assign id `u32::MAX` — `create` fails with `KittiesCountOverflow`,
contradicting the claim that exactly this call succeeds. -/
theorem c5_counterexample :
    stateFullCounter.kittiesCount = U32MAX ∧
    (create stateFullCounter 0 dna0).2 = some KittyError.KittiesCountOverflow :=
  ⟨rfl, rfl⟩

/-- Claim C5 amended: repeated creates succeed while the counter is below
`u32::MAX`; the call assigning id `u32::MAX - 1` succeeds and brings the
counter to `u32::MAX`, and the next call — the one that would assign id
`u32::MAX` — fails with `KittiesCountOverflow`, creating nothing. -/
theorem c5_counter_boundary (s : State) (sender : AccountId) (dna : Fin 16 → Nat) :
    (s.kittiesCount = U32MAX - 1 →
      (create s sender dna).2 = none ∧
      (create s sender dna).1.kittiesCount = U32MAX) ∧
    (s.kittiesCount = U32MAX →
      create s sender dna = (s, some KittyError.KittiesCountOverflow)) := by
  constructor
  · intro h
    have hne : ¬ (U32MAX - 1 = U32MAX) := by decide
    constructor
    · simp [create, next_kitty_id, h, hne]
    · simp only [create, next_kitty_id, h, hne, if_false, insert_kitty, kittiesInsert,
                 kittiesCountPut, ownedKittiesCountInsert, ownedKittiesInsert]
      decide
  · intro h
    simp [create, next_kitty_id, h]

theorem c5_counter_boundary_witness :
    ((create stateAlmostFull 0 dna0).2 = none ∧
     (create stateAlmostFull 0 dna0).1.kittiesCount = U32MAX) ∧
    create stateFullCounter 0 dna0 = (stateFullCounter, some KittyError.KittiesCountOverflow) :=
  ⟨(c5_counter_boundary stateAlmostFull 0 dna0).1 rfl,
   (c5_counter_boundary stateFullCounter 0 dna0).2 rfl⟩

/-- A selector byte vector for the literal DNA test. -/
def sel240 : Fin 16 → Nat := fun _ => 240

/-- Claim C6: a successful breed stores, at the freshly assigned id, a child
whose byte `i` is `(selector[i] & parentA[i]) | (!selector[i] & parentB[i])`
(on u8, `!x` is `x ^^^ 255`); and on the literal vectors
`a = 0b10101010, b = 0b01010101, selector = 0b11110000` the combined byte is
`0b10100101 = 165`. -/
theorem c6_breed_dna_formula :
    (∀ s sender id1 id2 k1 k2 sel,
      s.kitties id1 = some k1 → s.kitties id2 = some k2 → id1 ≠ id2 →
      s.kittiesCount ≠ U32MAX →
      (do_breed s sender id1 id2 sel).2 = none ∧
      (do_breed s sender id1 id2 sel).1.kitties s.kittiesCount =
        some ⟨fun i => (sel i &&& k1.dna i) ||| ((sel i ^^^ 255) &&& k2.dna i)⟩) ∧
    combine_dna 170 85 240 = 165 := by
  constructor
  · intro s sender id1 id2 k1 k2 sel h1 h2 hne hcnt
    unfold do_breed
    rw [h1, h2]
    simp [hne, next_kitty_id, hcnt, insert_kitty, kittiesInsert, kittiesCountPut,
          ownedKittiesCountInsert, ownedKittiesInsert, combine_dna]
  · decide

theorem c6_breed_dna_formula_witness :
    (do_breed stateA2 0 0 1 sel240).2 = none ∧
    (do_breed stateA2 0 0 1 sel240).1.kitties stateA2.kittiesCount =
      some ⟨fun i => (sel240 i &&& Kitty.dna ⟨dna0⟩ i) |||
        ((sel240 i ^^^ 255) &&& Kitty.dna ⟨dna1⟩ i)⟩ :=
  c6_breed_dna_formula.1 stateA2 0 0 1 ⟨dna0⟩ ⟨dna1⟩ sel240 rfl rfl
    (by decide) (by decide)

/-- `insert_kitty` leaves the kitty stored at any other id untouched. -/
theorem insert_kitty_kitties_ne (s : State) (o : AccountId) (kid : Nat) (kitty : Kitty)
    (i : Nat) (h : i ≠ kid) :
    (insert_kitty s o kid kitty).kitties i = s.kitties i := by
  simp [insert_kitty, kittiesInsert, kittiesCountPut, ownedKittiesCountInsert,
        ownedKittiesInsert, h]

/-- In a bounded store, an id holding a kitty lies below the counter. -/
theorem storeBounded_lt (s : State) (i : Nat) (k : Kitty)
    (hb : storeBounded s) (hk : s.kitties i = some k) : i < s.kittiesCount := by
  by_contra hge
  rw [hb i (Nat.le_of_not_lt hge)] at hk
  exact Option.noConfusion hk

/-- `next_kitty_id` only ever hands out the current counter. -/
theorem next_kitty_id_ok (s : State) (kid : Nat)
    (h : next_kitty_id s = Except.ok kid) : kid = s.kittiesCount := by
  unfold next_kitty_id at h
  dsimp only at h
  split at h
  · cases h
  · cases h; rfl

/-- Claim C8: no operation rewrites an existing payload.  In a bounded store
(no kitty at or beyond the counter — true of every reachable state), any
kitty present before `create` or `do_breed` is stored unchanged afterwards;
and `transfer` never touches the kitty store or the global counter at all,
modifying only ownership slots and counts. -/
theorem c8_payload_immutable :
    (∀ s sender dna i k, storeBounded s → s.kitties i = some k →
      (create s sender dna).1.kitties i = some k) ∧
    (∀ s sender id1 id2 sel i k, storeBounded s → s.kitties i = some k →
      (do_breed s sender id1 id2 sel).1.kitties i = some k) ∧
    (∀ lup s sender u t,
      (transfer lup s sender u t).1.kitties = s.kitties ∧
      (transfer lup s sender u t).1.kittiesCount = s.kittiesCount) := by
  refine ⟨?_, ?_, ?_⟩
  · intro s sender dna i k hb hk
    have hlt : i ≠ s.kittiesCount := Nat.ne_of_lt (storeBounded_lt s i k hb hk)
    unfold create
    split
    · exact hk
    · rw [insert_kitty_kitties_ne]
      · exact hk
      · exact fun hi => hlt (hi.trans (next_kitty_id_ok s _ (by assumption)))
  · intro s sender id1 id2 sel i k hb hk
    have hlt : i ≠ s.kittiesCount := Nat.ne_of_lt (storeBounded_lt s i k hb hk)
    unfold do_breed
    split
    · exact hk
    · split
      · exact hk
      · split
        · exact hk
        · split
          · exact hk
          · rw [insert_kitty_kitties_ne]
            · exact hk
            · exact fun hi => hlt (hi.trans (next_kitty_id_ok s _ (by assumption)))
  · intro lup s sender u t
    refine ⟨?_, ?_⟩ <;>
    · unfold transfer
      dsimp only
      split
      · split
        · rfl
        · split
          · rfl
          · split <;>
              simp [ownedKittiesInsert, ownedKittiesCountInsert, ownedKittiesRemove,
                    ownedKittiesGet]
      · rfl

/-- `stateOneKitty` is bounded: its only kitty sits below the counter. -/
theorem stateOneKitty_bounded : storeBounded stateOneKitty := by
  intro j hj
  have h1 : (1 : Nat) ≤ j := hj
  have h0 : j ≠ 0 := by omega
  simp [stateOneKitty, h0]

theorem c8_payload_immutable_witness :
    (create stateOneKitty 0 dna1).1.kitties 0 = some ⟨dna0⟩ ∧
    (do_breed stateOneKitty 0 0 0 dna0).1.kitties 0 = some ⟨dna0⟩ ∧
    (transfer idLookup stateOneKitty 0 0 1).1.kitties = stateOneKitty.kitties :=
  ⟨c8_payload_immutable.1 stateOneKitty 0 dna1 0 ⟨dna0⟩ stateOneKitty_bounded rfl,
   c8_payload_immutable.2.1 stateOneKitty 0 0 0 dna0 0 ⟨dna0⟩ stateOneKitty_bounded rfl,
   (c8_payload_immutable.2.2 idLookup stateOneKitty 0 0 1).1⟩
